import Mathlib

/-!
Verification of the `yeelight` Go package (`yeelight.go`), a TCP client for
Yeelight smart bulbs.  The package exposes a `Bulb` session holding one
connection and a command-id counter; `Send` serializes a JSON command,
writes it followed by `\r\n`, decodes one JSON response, and on full
success increments the counter.  Convenience operations (`TurnOn`,
`TurnOff`, `ColorTemp`, `RGB`, `Brightness`) wrap `Send`.

The embedding below models Go `int` as `Int` with explicit 64-bit
two's-complement wraparound where arithmetic occurs, models the network as
an explicit behavior record (whether each write succeeds and what JSON
value, if any, the reply stream yields), and models the fragment of Go's
`encoding/json` semantics that the program exercises: `Encoder.Encode`
appends a newline after the marshalled value, and `Decoder.Decode` into
the `response` struct ignores unknown keys, zero-values missing fields,
and fails on type mismatches.
-/

namespace Yeelight

/-- Go `int` is 64-bit two's complement: normalize an unbounded integer
into the interval `[-2^63, 2^63)`. -/
def wrap64 (x : Int) : Int := (x + 2 ^ 63) % 2 ^ 64 - 2 ^ 63

/-- Go addition on `int` (wrapping). -/
def goAdd (x y : Int) : Int := wrap64 (x + y)

/-- Go left shift on `int` by a constant count (wrapping); defined for
shift counts that arise in the source (16 and 8). -/
def goShl (x : Int) (n : Nat) : Int := wrap64 (x * 2 ^ n)

/-- A parameter value placed in a command's `params` list.  The source
passes only Go `int` and `string` values through the `...interface{}`
variadic, so the heterogeneous list is modelled by this closed sum. -/
inductive Param where
  | int (n : Int) : Param
  | str (s : String) : Param
deriving DecidableEq, Repr

/-- `type Method string` with the `String()` accessor; the enumerated
method names from the source. -/
def Method := String
deriving instance DecidableEq for Method

def MethodSetCTABX : Method := "set_ct_abx"
def MethodSetRGB : Method := "set_rgb"
def MethodSetHSV : Method := "set_hsv"
def MethodSetBrightness : Method := "set_bright"
def MethodSetPower : Method := "set_power"
def MethodToggle : Method := "toggle"

/-- `Method.String()`: `Send` always calls it on an addressable non-nil
receiver, so it returns the underlying string. -/
def methodString (m : Method) : String := m

/-- The `command` struct sent to the bulb: `ID int`, `Method string`,
`Params []interface{}`. -/
structure command where
  ID : Int
  Method : String
  Params : List Param
deriving DecidableEq, Repr

/-- The `response` struct received from the bulb: `ID int`,
`Result []string`. -/
structure response where
  ID : Int
  Result : List String
deriving DecidableEq, Repr

/-- A parsed JSON value, as produced by `encoding/json` from a well-formed
byte stream.  Numbers are restricted to integers, the only numeric shape
this protocol carries. -/
inductive Json where
  | null : Json
  | bool (b : Bool) : Json
  | num (n : Int) : Json
  | str (s : String) : Json
  | arr (xs : List Json) : Json
  | obj (fields : List (String × Json)) : Json

/-- ASCII lower-casing of one character, for case-insensitive key
matching. -/
def lowerChar (c : Char) : Char :=
  if 65 ≤ c.toNat ∧ c.toNat ≤ 90 then Char.ofNat (c.toNat + 32) else c

/-- ASCII lower-casing of a string. -/
def lowerString (s : String) : String := ⟨s.data.map lowerChar⟩

/-- `encoding/json` field matching: exact tag match, with a
case-insensitive fallback (tags here are already lowercase). -/
def keyMatch (k tag : String) : Bool := k == tag || lowerString k == tag

/-- Unmarshal a JSON array into `[]string`: elements must be strings
(`null` leaves the zero value `""`); anything else is a type error. -/
def strList : List Json → Option (List String)
  | [] => some []
  | Json.str s :: rest => (strList rest).map (fun ss => s :: ss)
  | Json.null :: rest => (strList rest).map (fun ss => "" :: ss)
  | _ => none

/-- A JSON number fits Go's 64-bit `int`. -/
def fitsInt64 (n : Int) : Bool := decide (-(2 ^ 63) ≤ n) && decide (n < 2 ^ 63)

/-- Unmarshal a value into the `ID int` field: integral numbers fitting
`int` are stored, `null` leaves the field untouched, anything else is a
type error. -/
def decodeIdField (v : Json) (r : response) : Option response :=
  match v with
  | Json.num n => if fitsInt64 n then some { r with ID := n } else none
  | Json.null => some r
  | _ => none

/-- Unmarshal a value into the `Result []string` field: string arrays are
stored, `null` leaves the field untouched, anything else is a type
error. -/
def decodeResultField (v : Json) (r : response) : Option response :=
  match v with
  | Json.arr xs =>
    match strList xs with
    | some ss => some { r with Result := ss }
    | none => none
  | Json.null => some r
  | _ => none

/-- Process an object's key/value pairs into a `response`, following
`encoding/json`: keys matching `id` and `result` update their fields,
unknown keys are skipped, later duplicates overwrite. -/
def decodeFields : List (String × Json) → response → Option response
  | [], r => some r
  | (k, v) :: rest, r =>
    if keyMatch k "id" then
      match decodeIdField v r with
      | some r2 => decodeFields rest r2
      | none => none
    else if keyMatch k "result" then
      match decodeResultField v r with
      | some r2 => decodeFields rest r2
      | none => none
    else decodeFields rest r

/-- `json.Decoder.Decode(&resp)` on one parsed JSON value: a top-level
`null` is a no-op success leaving the zero value, an object is decoded
field by field, and any other top-level shape is a type error. -/
def decodeResponse : Json → Option response
  | Json.null => some { ID := 0, Result := [] }
  | Json.obj fs => decodeFields fs { ID := 0, Result := [] }
  | _ => none

/-- One hex digit, lowercase, as emitted by `encoding/json` escapes. -/
def hexDigit (n : Nat) : Char :=
  if n < 10 then Char.ofNat (48 + n) else Char.ofNat (87 + n)

/-- Escaping of one character inside a JSON string as performed by
`encoding/json` with its default HTML escaping (`Encoder` without
`SetEscapeHTML(false)`). -/
def escapeChar (c : Char) : String :=
  if c = '"' then "\\\""
  else if c = '\\' then "\\\\"
  else if c = '\n' then "\\n"
  else if c = '\r' then "\\r"
  else if c = '\t' then "\\t"
  else if c = '<' then "\\u003c"
  else if c = '>' then "\\u003e"
  else if c = '&' then "\\u0026"
  else if c.toNat < 32 then
    "\\u00" ++ String.mk [hexDigit (c.toNat / 16), hexDigit (c.toNat % 16)]
  else if c.toNat = 8232 then "\\u2028"
  else if c.toNat = 8233 then "\\u2029"
  else String.singleton c

/-- Escape every character of a JSON string body. -/
def escapeString (s : String) : String := String.join (s.data.map escapeChar)

/-- A JSON string literal: quote-delimited escaped body. -/
def quoteString (s : String) : String := "\"" ++ escapeString s ++ "\""

/-- `json.Marshal` of one `params` element. -/
def marshalParam : Param → String
  | Param.int n => toString n
  | Param.str s => quoteString s

/-- `json.Marshal` of the `Params []interface{}` field.  A `Send` call
with zero variadic arguments leaves the Go slice `nil`, which marshals as
`null`; a non-empty slice marshals as a JSON array. -/
def marshalParams : List Param → String
  | [] => "null"
  | ps => "[" ++ String.intercalate "," (ps.map marshalParam) ++ "]"

/-- `json.Marshal` of the `command` struct, with its field order and
`json:` tags from the source: `\x7b"id":…,"method":…,"params":…\x7d`. -/
def marshalCommand (c : command) : String :=
  "\x7b\"id\":" ++ toString c.ID ++ ",\"method\":" ++ quoteString c.Method
    ++ ",\"params\":" ++ marshalParams c.Params ++ "\x7d"

/-- The behavior of the network during one `Send` call: whether the
JSON-encoder write succeeds, whether the `\r\n` trailer write succeeds,
and the JSON value (if any) the reply stream yields to the decoder
(`none` models a transport failure or a malformed / truncated reply from
which no JSON value can be parsed). -/
structure NetBehavior where
  encodeOk : Bool
  trailerOk : Bool
  reply : Option Json

/-- The mutable state of a `Bulb` session: its command-id counter
(`cmdID int`, Go zero value 0).  The connection itself is represented by
the `NetBehavior` each call observes. -/
structure BulbState where
  cmdID : Int
deriving DecidableEq, Repr

/-- Everything one `Send` call produces: the `command` it constructed,
the bytes it wrote to the connection, its returned error value, and the
session state it leaves behind. -/
structure SendResult where
  cmd : command
  wire : String
  res : Except String Unit
  state : BulbState

/-- `NewBulb(address)`: append `":55443"` when the address contains no
colon (`strings.Contains(address, ":")` on a one-character needle is
membership of that character), then dial.  On success the returned `Bulb`
has the zero-valued counter; `dialOk` models whether `net.Dial` succeeds,
and the returned string is the address actually dialed. -/
def NewBulb (address : String) (dialOk : Bool) : Option (String × BulbState) :=
  let address := if !(address.data.contains ':') then address ++ ":55443" else address
  if dialOk then some (address, { cmdID := 0 }) else none

/-- `Bulb.Send`: build the command with the current counter, encode it
(the encoder writes the JSON text plus a trailing `\n`), write the
`"\r\n"` trailer, decode one JSON value as the response; only after all
three steps succeed is the counter incremented.  Every failure path
returns the state unchanged. -/
def send (b : BulbState) (method : Method) (args : List Param) (net : NetBehavior) :
    SendResult :=
  let cmd : command := { ID := b.cmdID, Method := methodString method, Params := args }
  if net.encodeOk = false then
    { cmd := cmd, wire := "", res := Except.error "cannot write json", state := b }
  else
    let wire1 := marshalCommand cmd ++ "\n"
    if net.trailerOk = false then
      { cmd := cmd, wire := wire1, res := Except.error "cannot write trailer", state := b }
    else
      let wire2 := wire1 ++ "\r\n"
      match net.reply.bind decodeResponse with
      | none =>
        { cmd := cmd, wire := wire2, res := Except.error "receiving response", state := b }
      | some _ =>
        { cmd := cmd, wire := wire2, res := Except.ok (),
          state := { cmdID := goAdd b.cmdID 1 } }

/-- Whether a `Send` against this network behavior completes the full
round trip (both writes succeed and the reply decodes). -/
def sendOk (net : NetBehavior) : Bool :=
  net.encodeOk && net.trailerOk && (net.reply.bind decodeResponse).isSome

/-- `Bulb.TurnOn`. -/
def TurnOn (b : BulbState) (net : NetBehavior) : SendResult :=
  send b MethodSetPower [Param.str "on"] net

/-- `Bulb.TurnOff`. -/
def TurnOff (b : BulbState) (net : NetBehavior) : SendResult :=
  send b MethodSetPower [Param.str "off"] net

/-- `Bulb.ColorTemp`: the source's `switch` clamps below 1700 up and
above 6500 down before sending. -/
def ColorTemp (b : BulbState) (temp : Int) (net : NetBehavior) : SendResult :=
  let temp := if temp < 1700 then (1700 : Int) else if temp > 6500 then (6500 : Int) else temp
  send b MethodSetCTABX [Param.int temp] net

/-- `Bulb.RGB`: sends `red<<16 + green<<8 + blue` (Go shifts bind tighter
than `+`), with no range validation, as a single parameter. -/
def RGB (b : BulbState) (red green blue : Int) (net : NetBehavior) : SendResult :=
  send b MethodSetRGB [Param.int (goAdd (goAdd (goShl red 16) (goShl green 8)) blue)] net

/-- `Bulb.Brightness`: the source's `switch` clamps above 100 down and
below 1 up before sending. -/
def Brightness (b : BulbState) (brightness : Int) (net : NetBehavior) : SendResult :=
  let brightness :=
    if brightness > 100 then (100 : Int) else if brightness < 1 then (1 : Int) else brightness
  send b MethodSetBrightness [Param.int brightness] net

/-- One `Send` invocation in a sequence: its method, arguments and the
network behavior it observes. -/
structure Call where
  method : Method
  args : List Param
  net : NetBehavior

/-- Run a sequence of `Send` calls on one session, collecting the
commands actually serialized onto the wire (a call whose encoder write
fails serializes nothing). -/
def runSends (b : BulbState) : List Call → BulbState × List command
  | [] => (b, [])
  | c :: rest =>
    let r := send b c.method c.args c.net
    let p := runSends r.state rest
    (p.1, (if c.net.encodeOk then [r.cmd] else []) ++ p.2)

/-- The packing formula as the specification words it:
`(red << 16) | (green << 8) | blue`, bitwise OR. -/
def rgbPackedSpec (red green blue : Int) : Int :=
  Int.lor (Int.lor (red <<< (16 : Int)) (green <<< (8 : Int))) blue


/-- A well-formed success reply, used as a canonical network behavior in
concrete instantiations. -/
def replyOk : Json := Json.obj [("id", Json.num 0), ("result", Json.arr [Json.str "ok"])]

/-- A network behavior where both writes succeed and the device answers
with a well-formed success reply. -/
def netAllOk : NetBehavior := { encodeOk := true, trailerOk := true, reply := some replyOk }

theorem wrap64_eq_self {x : Int} (h1 : -(2 ^ 63) ≤ x) (h2 : x < 2 ^ 63) : wrap64 x = x := by
  unfold wrap64
  norm_num at h1 h2 ⊢
  omega

theorem goAdd_one_eq {k : Int} (h0 : 0 ≤ k) (h1 : k + 1 < 2 ^ 63) : goAdd k 1 = k + 1 := by
  unfold goAdd
  refine wrap64_eq_self ?_ h1
  norm_num
  omega

theorem sendOk_parts {net : NetBehavior} (h : sendOk net = true) :
    net.encodeOk = true ∧ net.trailerOk = true ∧
      (net.reply.bind decodeResponse).isSome = true := by
  simp only [sendOk, Bool.and_eq_true] at h
  exact ⟨h.1.1, h.1.2, h.2⟩

theorem send_cmd (b : BulbState) (m : Method) (args : List Param) (net : NetBehavior) :
    (send b m args net).cmd = { ID := b.cmdID, Method := methodString m, Params := args } := by
  cases he : net.encodeOk with
  | false => simp [send, he]
  | true =>
    cases ht : net.trailerOk with
    | false => simp [send, he, ht]
    | true =>
      cases hbd : net.reply.bind decodeResponse with
      | none => simp [send, he, ht, hbd]
      | some r => simp [send, he, ht, hbd]

theorem send_state_of_ok (b : BulbState) (m : Method) (args : List Param) {net : NetBehavior}
    (h : sendOk net = true) :
    (send b m args net).state = { cmdID := goAdd b.cmdID 1 } := by
  obtain ⟨he, ht, hd⟩ := sendOk_parts h
  cases hbd : net.reply.bind decodeResponse with
  | none => rw [hbd] at hd; simp at hd
  | some r => simp [send, he, ht, hbd]

theorem send_res_of_ok (b : BulbState) (m : Method) (args : List Param) {net : NetBehavior}
    (h : sendOk net = true) :
    (send b m args net).res = Except.ok () := by
  obtain ⟨he, ht, hd⟩ := sendOk_parts h
  cases hbd : net.reply.bind decodeResponse with
  | none => rw [hbd] at hd; simp at hd
  | some r => simp [send, he, ht, hbd]

theorem send_of_fail (b : BulbState) (m : Method) (args : List Param) {net : NetBehavior}
    (h : sendOk net = false) :
    (∃ e, (send b m args net).res = Except.error e) ∧ (send b m args net).state = b := by
  cases he : net.encodeOk with
  | false => simp [send, he]
  | true =>
    cases ht : net.trailerOk with
    | false => simp [send, he, ht]
    | true =>
      cases hbd : net.reply.bind decodeResponse with
      | none => simp [send, he, ht, hbd]
      | some r =>
        exfalso
        simp [sendOk, he, ht, hbd] at h

theorem runSends_ids (calls : List Call) :
    ∀ k : Int, 0 ≤ k → k + calls.length < 9223372036854775808 →
      (∀ c ∈ calls, sendOk c.net = true) →
      (runSends { cmdID := k } calls).2.map command.ID
        = (List.range calls.length).map (fun (i : Nat) => k + (i : Int)) := by
  induction calls with
  | nil => intro k _ _ _; simp [runSends]
  | cons c rest ih =>
    intro k hk hlen hok
    have hc : sendOk c.net = true := hok c (List.mem_cons_self _ _)
    have hrest : ∀ x ∈ rest, sendOk x.net = true := fun x hx => hok x (List.mem_cons_of_mem _ hx)
    obtain ⟨he, -, -⟩ := sendOk_parts hc
    simp only [List.length_cons] at hlen
    push_cast at hlen
    have hga : goAdd k 1 = k + 1 := goAdd_one_eq hk (by norm_num; omega)
    have hst : (send { cmdID := k } c.method c.args c.net).state = { cmdID := goAdd k 1 } :=
      send_state_of_ok _ _ _ hc
    simp only [runSends, List.length_cons]
    rw [send_cmd, hst, hga, he]
    simp only [if_true, List.singleton_append, List.map_cons]
    rw [ih (k + 1) (by omega) (by omega) hrest]
    rw [List.range_succ_eq_map, List.map_cons, List.map_map]
    have hfun : ((fun i : Nat => k + (i : Int)) ∘ Nat.succ) = fun i : Nat => (k + 1) + (i : Int) := by
      funext i
      simp only [Function.comp]
      push_cast
      ring
    rw [hfun]
    norm_num

/-- **C1**: after `NewBulb` succeeds the session counter is 0, and for
any sequence of N consecutive successful `Send` calls on that session the
ids carried by the serialized commands are exactly 0, 1, …, N-1 in
issuance order (the counter advances by exactly 1 after each successful
exchange).  N is bounded by the capacity of the Go `int` counter. -/
theorem newBulb_send_ids_sequential (address : String) (calls : List Call)
    (hok : ∀ c ∈ calls, sendOk c.net = true)
    (hlen : (calls.length : Int) < 2 ^ 63) :
    ∀ s st, NewBulb address true = some (s, st) →
      st.cmdID = 0 ∧
      (runSends st calls).2.map command.ID
        = (List.range calls.length).map (fun (i : Nat) => (i : Int)) := by
  intro s st h
  have hst : st = { cmdID := 0 } := by
    simp only [NewBulb, if_true] at h
    exact (Prod.mk.injEq _ _ _ _ ▸ (Option.some.injEq _ _ ▸ h)).2.symm
  subst hst
  refine ⟨rfl, ?_⟩
  have h0 := runSends_ids calls 0 le_rfl (by norm_num at hlen ⊢; omega) hok
  simpa using h0

/-- Witness for C1 at a concrete session: three successful sends from a
fresh bulb carry ids 0, 1, 2. -/
theorem newBulb_send_ids_sequential_witness :
    ({ cmdID := 0 } : BulbState).cmdID = 0 ∧
    (runSends { cmdID := 0 }
        [ { method := MethodSetPower, args := [Param.str "on"], net := netAllOk },
          { method := MethodSetBrightness, args := [Param.int 50], net := netAllOk },
          { method := MethodToggle, args := [], net := netAllOk } ]).2.map command.ID
      = (List.range 3).map (fun (i : Nat) => (i : Int)) :=
  newBulb_send_ids_sequential "bulb"
    [ { method := MethodSetPower, args := [Param.str "on"], net := netAllOk },
      { method := MethodSetBrightness, args := [Param.int 50], net := netAllOk },
      { method := MethodToggle, args := [], net := netAllOk } ]
    (by decide) (by decide) "bulb:55443" { cmdID := 0 } (by decide)

/-- **C2**: a `Send` that fails at any step (encoder write, trailer
write, or response read/decode) returns an error and leaves the counter
unchanged, so a follow-up `Send` constructs its command with the very id
the failed call used. -/
theorem send_failure_preserves_counter (b : BulbState) (m : Method) (args : List Param)
    (net : NetBehavior) (m2 : Method) (args2 : List Param) (net2 : NetBehavior)
    (h : sendOk net = false) :
    (send b m args net).res.isOk = false ∧
    (send b m args net).state = b ∧
    (send (send b m args net).state m2 args2 net2).cmd.ID = b.cmdID := by
  obtain ⟨⟨e, hres⟩, hstate⟩ := send_of_fail b m args h
  refine ⟨by rw [hres]; rfl, hstate, ?_⟩
  rw [hstate, send_cmd]

/-- Witness for C2: a trailer-write failure at counter 5 returns an
error, keeps the counter at 5, and the next call reuses id 5. -/
theorem send_failure_preserves_counter_witness :
    sendOk { encodeOk := true, trailerOk := false, reply := some replyOk } = false ∧
    ((send { cmdID := 5 } MethodSetPower [Param.str "on"]
        { encodeOk := true, trailerOk := false, reply := some replyOk }).res.isOk = false ∧
      (send { cmdID := 5 } MethodSetPower [Param.str "on"]
        { encodeOk := true, trailerOk := false, reply := some replyOk }).state = { cmdID := 5 } ∧
      (send (send { cmdID := 5 } MethodSetPower [Param.str "on"]
          { encodeOk := true, trailerOk := false, reply := some replyOk }).state
        MethodSetPower [Param.str "on"] netAllOk).cmd.ID = 5) :=
  ⟨by decide,
    send_failure_preserves_counter { cmdID := 5 } MethodSetPower [Param.str "on"]
      { encodeOk := true, trailerOk := false, reply := some replyOk }
      MethodSetPower [Param.str "on"] netAllOk (by decide)⟩

/-- **C3** (counterexample): the bytes a successful `Send` writes are not
the JSON text immediately followed by `\r\n` — the JSON encoder appends
its own `\n` first, so a byte sits between the JSON object and the
`\r\n` terminator. -/
theorem send_frame_crlf_counterexample :
    ¬ ((send { cmdID := 0 } MethodSetPower [Param.str "on"] netAllOk).wire
        = marshalCommand (send { cmdID := 0 } MethodSetPower [Param.str "on"] netAllOk).cmd
          ++ "\r\n") := by decide

/-- **C3** (amended): every request frame written by a `Send` whose two
writes succeed is exactly the JSON object text of the command, then the
single byte `\n` appended by `json.Encoder.Encode`, then the two bytes
`\r\n`. -/
theorem send_frame_layout (b : BulbState) (m : Method) (args : List Param)
    (net : NetBehavior) (he : net.encodeOk = true) (ht : net.trailerOk = true) :
    (send b m args net).wire
      = marshalCommand { ID := b.cmdID, Method := methodString m, Params := args }
        ++ "\n" ++ "\r\n" := by
  cases hbd : net.reply.bind decodeResponse with
  | none => simp [send, he, ht, hbd]
  | some r => simp [send, he, ht, hbd]

/-- Witness for the amended C3 at a concrete command. -/
theorem send_frame_layout_witness :
    netAllOk.encodeOk = true ∧ netAllOk.trailerOk = true ∧
    (send { cmdID := 0 } MethodSetPower [Param.str "on"] netAllOk).wire
      = marshalCommand
          { ID := 0, Method := methodString MethodSetPower, Params := [Param.str "on"] }
        ++ "\n" ++ "\r\n" :=
  ⟨rfl, rfl, send_frame_layout { cmdID := 0 } MethodSetPower [Param.str "on"] netAllOk rfl rfl⟩

/-- **C4** (counterexample): the value `RGB` sends is computed with `+`,
not bitwise OR; at `RGB(0, 255, 256)` the code sends 65536 while the
claimed formula `(red << 16) | (green << 8) | blue` yields 65280. -/
theorem rgb_or_formula_counterexample :
    (RGB { cmdID := 0 } 0 255 256 netAllOk).cmd.Params
      ≠ [Param.int (rgbPackedSpec 0 255 256)] := by decide

theorem lor_pack_eq_add (r g b : Nat) (hg : g < 2 ^ 8) (hb : b < 2 ^ 8) :
    ((r <<< 16) ||| (g <<< 8)) ||| b = r * 2 ^ 16 + g * 2 ^ 8 + b := by
  rw [Nat.shiftLeft_eq, Nat.shiftLeft_eq, Nat.mul_comm r, Nat.mul_comm g]
  have hglt : 2 ^ 8 * g < 2 ^ 16 := by norm_num at hg ⊢; omega
  rw [← Nat.mul_add_lt_is_or hglt r]
  have h2 : 2 ^ 16 * r + 2 ^ 8 * g = 2 ^ 8 * (2 ^ 8 * r + g) := by ring
  rw [h2, ← Nat.mul_add_lt_is_or hb _]

theorem rgbPackedSpec_eq_add_of_range {red green blue : Int}
    (hr0 : 0 ≤ red) (hg0 : 0 ≤ green) (hg : green ≤ 255)
    (hb0 : 0 ≤ blue) (hb : blue ≤ 255) :
    rgbPackedSpec red green blue = red * 2 ^ 16 + green * 2 ^ 8 + blue := by
  lift red to ℕ using hr0 with r
  lift green to ℕ using hg0 with g
  lift blue to ℕ using hb0 with b
  have hg' : g < 2 ^ 8 := by norm_num; omega
  have hb' : b < 2 ^ 8 := by norm_num; omega
  unfold rgbPackedSpec
  have e1 : (r : ℤ) <<< (16 : ℤ) = ((r <<< 16 : ℕ) : ℤ) := by
    have h := Int.shiftLeft_coe_nat r 16
    norm_num at h
    exact h
  have e2 : (g : ℤ) <<< (8 : ℤ) = ((g <<< 8 : ℕ) : ℤ) := by
    have h := Int.shiftLeft_coe_nat g 8
    norm_num at h
    exact h
  rw [e1, e2]
  have e3 : Int.lor ((r <<< 16 : ℕ) : ℤ) ((g <<< 8 : ℕ) : ℤ)
      = (((r <<< 16) ||| (g <<< 8) : ℕ) : ℤ) := rfl
  have e4 : Int.lor ((((r <<< 16) ||| (g <<< 8) : ℕ)) : ℤ) ((b : ℕ) : ℤ)
      = (((r <<< 16) ||| (g <<< 8) ||| b : ℕ) : ℤ) := rfl
  rw [e3, e4, lor_pack_eq_add r g b hg' hb']
  push_cast
  ring

/-- **C4** (amended): `RGB` sends method `set_rgb` with the single packed
parameter `red*2^16 + green*2^8 + blue` (Go `+`, not `|`, with no range
validation); for channels within 0–255 this coincides with the
specification's OR formula — in particular the cited examples hold. -/
theorem rgb_packs_channels (st : BulbState) (red green blue : Int) (net : NetBehavior)
    (hr0 : 0 ≤ red) (hr : red ≤ 255) (hg0 : 0 ≤ green) (hg : green ≤ 255)
    (hb0 : 0 ≤ blue) (hb : blue ≤ 255) :
    (RGB st red green blue net).cmd.Method = "set_rgb" ∧
    (RGB st red green blue net).cmd.Params
      = [Param.int (red * 2 ^ 16 + green * 2 ^ 8 + blue)] ∧
    red * 2 ^ 16 + green * 2 ^ 8 + blue = rgbPackedSpec red green blue := by
  refine ⟨?_, ?_, (rgbPackedSpec_eq_add_of_range hr0 hg0 hg hb0 hb).symm⟩
  · unfold RGB; rw [send_cmd]; rfl
  · unfold RGB
    rw [send_cmd]
    have h1 : goShl red 16 = red * 2 ^ 16 := by
      unfold goShl
      refine wrap64_eq_self ?_ ?_ <;> norm_num <;> omega
    have h2 : goShl green 8 = green * 2 ^ 8 := by
      unfold goShl
      refine wrap64_eq_self ?_ ?_ <;> norm_num <;> omega
    have h3 : goAdd (red * 2 ^ 16) (green * 2 ^ 8) = red * 2 ^ 16 + green * 2 ^ 8 := by
      unfold goAdd
      refine wrap64_eq_self ?_ ?_ <;> norm_num <;> omega
    have h4 : goAdd (red * 2 ^ 16 + green * 2 ^ 8) blue
        = red * 2 ^ 16 + green * 2 ^ 8 + blue := by
      unfold goAdd
      refine wrap64_eq_self ?_ ?_ <;> norm_num <;> omega
    rw [h1, h2, h3, h4]

/-- Witness for the amended C4 at the claim's own example
`RGB(255, 0, 0)`: the packed value is 16711680. -/
theorem rgb_packs_channels_witness :
    ((RGB { cmdID := 0 } 255 0 0 netAllOk).cmd.Method = "set_rgb" ∧
      (RGB { cmdID := 0 } 255 0 0 netAllOk).cmd.Params
        = [Param.int (255 * 2 ^ 16 + 0 * 2 ^ 8 + 0)] ∧
      255 * 2 ^ 16 + 0 * 2 ^ 8 + 0 = rgbPackedSpec 255 0 0) ∧
    (255 * 2 ^ 16 + 0 * 2 ^ 8 + 0 : Int) = 16711680 :=
  ⟨rgb_packs_channels { cmdID := 0 } 255 0 0 netAllOk (by norm_num) (by norm_num)
      (by norm_num) (by norm_num) (by norm_num) (by norm_num),
    by norm_num⟩

/-- **C5**: `ColorTemp(kelvin)` sends method `set_ct_abx` with the single
parameter clamped into [1700, 6500]: below 1700 becomes 1700, above 6500
becomes 6500, inside the range unchanged. -/
theorem colorTemp_clamps (b : BulbState) (temp : Int) (net : NetBehavior) :
    (ColorTemp b temp net).cmd.Method = "set_ct_abx" ∧
    (ColorTemp b temp net).cmd.Params = [Param.int (max 1700 (min 6500 temp))] := by
  constructor
  · unfold ColorTemp; rw [send_cmd]; rfl
  · unfold ColorTemp; rw [send_cmd]
    have h : (if temp < 1700 then (1700 : Int) else if temp > 6500 then 6500 else temp)
        = max 1700 (min 6500 temp) := by
      split_ifs <;> omega
    rw [h]

/-- **C6**: `Brightness(percent)` sends method `set_bright` with the
single parameter clamped into [1, 100]: above 100 becomes 100, below 1
(zero and negatives included) becomes 1, never rejected. -/
theorem brightness_clamps (b : BulbState) (percent : Int) (net : NetBehavior) :
    (Brightness b percent net).cmd.Method = "set_bright" ∧
    (Brightness b percent net).cmd.Params = [Param.int (max 1 (min 100 percent))] := by
  constructor
  · unfold Brightness; rw [send_cmd]; rfl
  · unfold Brightness; rw [send_cmd]
    have h : (if percent > 100 then (100 : Int) else if percent < 1 then 1 else percent)
        = max 1 (min 100 percent) := by
      split_ifs <;> omega
    rw [h]

/-- **C7** (counterexample): a well-formed JSON object reply that carries
no `result` member is not treated as a protocol error — it decodes with
the zero-valued empty result, `Send` returns success and the counter
advances. -/
theorem send_missing_result_counterexample :
    decodeResponse (Json.obj [("id", Json.num 0)]) = some { ID := 0, Result := [] } ∧
    (send { cmdID := 0 } MethodSetPower [Param.str "on"]
        { encodeOk := true, trailerOk := true,
          reply := some (Json.obj [("id", Json.num 0)]) }).res = Except.ok () ∧
    (send { cmdID := 0 } MethodSetPower [Param.str "on"]
        { encodeOk := true, trailerOk := true,
          reply := some (Json.obj [("id", Json.num 0)]) }).state.cmdID = 1 :=
  ⟨by decide, rfl, by decide⟩

/-- **C7** (amended): `Send` fails with a protocol error exactly when the
reply stream yields no decodable response — malformed JSON, or a JSON
value that does not unmarshal into the response struct (wrong top-level
shape or wrongly typed fields) — and the counter is left unchanged;
whereas a well-formed object merely lacking `result` unmarshals
successfully with an empty result sequence. -/
theorem send_undecodable_reply_is_error (b : BulbState) (m : Method) (args : List Param)
    (net : NetBehavior) (i : Int)
    (he : net.encodeOk = true) (ht : net.trailerOk = true)
    (hdec : net.reply.bind decodeResponse = none) (hfit : fitsInt64 i = true) :
    (send b m args net).res = Except.error "receiving response" ∧
    (send b m args net).state = b ∧
    decodeResponse (Json.obj [("id", Json.num i)]) = some { ID := i, Result := [] } := by
  have hk : keyMatch "id" "id" = true := by decide
  refine ⟨?_, ?_, ?_⟩
  · simp [send, he, ht, hdec]
  · simp [send, he, ht, hdec]
  · simp [decodeResponse, decodeFields, decodeIdField, hk, hfit]

/-- Witness for the amended C7: a non-object reply (`5`) yields a decode
error and an unchanged counter; an object lacking `result` decodes. -/
theorem send_undecodable_reply_is_error_witness :
    (send { cmdID := 4 } MethodSetPower [Param.str "on"]
        { encodeOk := true, trailerOk := true, reply := some (Json.num 5) }).res
      = Except.error "receiving response" ∧
    (send { cmdID := 4 } MethodSetPower [Param.str "on"]
        { encodeOk := true, trailerOk := true, reply := some (Json.num 5) }).state
      = { cmdID := 4 } ∧
    decodeResponse (Json.obj [("id", Json.num 7)]) = some { ID := 7, Result := [] } :=
  send_undecodable_reply_is_error { cmdID := 4 } MethodSetPower [Param.str "on"]
    { encodeOk := true, trailerOk := true, reply := some (Json.num 5) } 7
    rfl rfl (by decide) (by decide)

/-- **C8**: `Send`'s success never depends on the reply's `id` matching
the sent command's id: whenever the reply decodes to some response `r` —
with no constraint whatsoever relating `r.ID` to the session counter —
`Send` returns success and increments the counter. -/
theorem send_accepts_mismatched_id (b : BulbState) (m : Method) (args : List Param)
    (net : NetBehavior) (r : response)
    (he : net.encodeOk = true) (ht : net.trailerOk = true)
    (hdec : net.reply.bind decodeResponse = some r) :
    (send b m args net).res = Except.ok () ∧
    (send b m args net).state.cmdID = goAdd b.cmdID 1 := by
  constructor <;> simp [send, he, ht, hdec]

/-- Witness for C8: a reply carrying id 999 against a command sent with
id 0 is still accepted and the counter still advances. -/
theorem send_accepts_mismatched_id_witness :
    (({ ID := 999, Result := ["ok"] } : response).ID ≠ ({ cmdID := 0 } : BulbState).cmdID) ∧
    ((send { cmdID := 0 } MethodSetPower [Param.str "on"]
        { encodeOk := true, trailerOk := true,
          reply := some (Json.obj [("id", Json.num 999),
            ("result", Json.arr [Json.str "ok"])]) }).res = Except.ok () ∧
      (send { cmdID := 0 } MethodSetPower [Param.str "on"]
        { encodeOk := true, trailerOk := true,
          reply := some (Json.obj [("id", Json.num 999),
            ("result", Json.arr [Json.str "ok"])]) }).state.cmdID
        = goAdd ({ cmdID := 0 } : BulbState).cmdID 1) :=
  ⟨by decide,
    send_accepts_mismatched_id { cmdID := 0 } MethodSetPower [Param.str "on"]
      { encodeOk := true, trailerOk := true,
        reply := some (Json.obj [("id", Json.num 999),
          ("result", Json.arr [Json.str "ok"])]) }
      { ID := 999, Result := ["ok"] } rfl rfl (by decide)⟩

/-- **C9**: session construction appends the default control port 55443
to an address carrying no colon (i.e. no explicit port in host:port
syntax) and dials the result; an address already carrying a colon is
dialed verbatim.  Either way the new session's counter is 0. -/
theorem newBulb_appends_default_port (address : String) :
    (address.data.contains ':' = false →
      NewBulb address true = some (address ++ ":55443", { cmdID := 0 })) ∧
    (address.data.contains ':' = true →
      NewBulb address true = some (address, { cmdID := 0 })) := by
  constructor <;> intro h <;> unfold NewBulb <;> rw [h] <;> rfl

/-- Witness for C9: a bare IPv4 host gets `:55443` appended; a host:port
address is dialed verbatim. -/
theorem newBulb_appends_default_port_witness :
    NewBulb "192.168.2.10" true = some ("192.168.2.10" ++ ":55443", { cmdID := 0 }) ∧
    NewBulb "192.168.2.10:1234" true = some ("192.168.2.10:1234", { cmdID := 0 }) :=
  ⟨(newBulb_appends_default_port "192.168.2.10").1 (by decide),
    (newBulb_appends_default_port "192.168.2.10:1234").2 (by decide)⟩

end Yeelight


section Smoke
open Yeelight
example : decodeResponse (Json.obj [("id", Json.num 3), ("result", Json.arr [Json.str "ok"])])
    = some { ID := 3, Result := ["ok"] } := by decide
example : decodeResponse (Json.obj [("id", Json.num 3)]) = some { ID := 3, Result := [] } := by
  decide
example : decodeResponse (Json.num 5) = none := by decide
example : goAdd 3 1 = 4 := by decide
example : goShl 255 16 = 16711680 := by decide
example :
    marshalCommand { ID := 0, Method := "set_power", Params := [Param.str "on"] }
      = "\x7b\"id\":0,\"method\":\"set_power\",\"params\":[\"on\"]\x7d" := by decide
example :
    (send { cmdID := 0 } MethodSetPower [Param.str "on"]
        { encodeOk := true, trailerOk := true,
          reply := some (Json.obj [("id", Json.num 0), ("result", Json.arr [Json.str "ok"])]) }).res
      = Except.ok () := by rfl
example : rgbPackedSpec 0 255 256 = 65280 := by decide
example : goAdd (goAdd (goShl 0 16) (goShl 255 8)) 256 = 65536 := by decide
end Smoke